import Mathlib

/-!
Verification development for the Cosmic-Watch orbital-mechanics and
impact-risk engine.

The JavaScript sources are shallowly embedded:
* exact decimal arithmetic of the scoring / classification code is modelled
  over `ℚ` (every constant in those code paths is a short decimal literal,
  and every branch condition compared below is exactly representable);
* the transcendental orbital propagator (Kepler solver, anomaly
  conversions, rotations) is modelled over `ℝ`;
* the special values `Infinity` / `NaN` of the closest-approach search are
  modelled by an explicit `JSNum` type with the JavaScript comparison
  semantics (every comparison against `NaN` is false);
* the hidden global random generator `Math.random` is modelled as an
  explicit runtime state (`RandState`): a stream of unit-interval draws
  plus a cursor, threaded exactly where the JavaScript runtime would
  consult the generator.
-/

/-! ### Risk engine (src/backend/utils/riskEngine.js) -/

/-- Distance thresholds in km (`DISTANCE_THRESHOLDS`). -/
def DISTANCE_THRESHOLDS_LUNAR : ℚ := 384400

def DISTANCE_THRESHOLDS_CLOSE : ℚ := 1000000

def DISTANCE_THRESHOLDS_MODERATE : ℚ := 5000000

def DISTANCE_THRESHOLDS_SAFE : ℚ := 7500000

/-- `calculateProximityScore(distanceKm)` from riskEngine.js, lines 60-71. -/
def calculateProximityScore (distanceKm : ℚ) : ℚ :=
  if distanceKm < DISTANCE_THRESHOLDS_LUNAR then
    100
  else if distanceKm < DISTANCE_THRESHOLDS_CLOSE then
    80 + 20 * (1 - distanceKm / DISTANCE_THRESHOLDS_LUNAR)
  else if distanceKm < DISTANCE_THRESHOLDS_MODERATE then
    40 + 40 * (1 - distanceKm / DISTANCE_THRESHOLDS_CLOSE)
  else if distanceKm < DISTANCE_THRESHOLDS_SAFE then
    40 * (1 - distanceKm / DISTANCE_THRESHOLDS_MODERATE)
  else
    0

/-! ### Torino scale (src/unnamed/part_018, torinoScale module) -/

def ENERGY_THRESHOLDS_LOCAL : ℚ := 0.001

def ENERGY_THRESHOLDS_REGIONAL : ℚ := 1

def ENERGY_THRESHOLDS_GLOBAL : ℚ := 1000

/-- The nested if/else ladder computing the integer Torino level inside
`calculateTorinoScale` (part_018 lines 106-161), after input validation. -/
def torinoLevel (impactProbability energyMT : ℚ) : ℕ :=
  if energyMT < ENERGY_THRESHOLDS_LOCAL then 0
  else if 0.99 ≤ impactProbability then
    if ENERGY_THRESHOLDS_GLOBAL ≤ energyMT then 10
    else if ENERGY_THRESHOLDS_REGIONAL ≤ energyMT then 9
    else 8
  else if 0.01 ≤ impactProbability then
    if ENERGY_THRESHOLDS_GLOBAL ≤ energyMT then
      if 0.5 ≤ impactProbability then 7 else 6
    else if ENERGY_THRESHOLDS_REGIONAL ≤ energyMT then 5
    else 4
  else if 0.001 ≤ impactProbability then
    if ENERGY_THRESHOLDS_REGIONAL ≤ energyMT then 4 else 3
  else if 0.0001 ≤ impactProbability then
    if ENERGY_THRESHOLDS_REGIONAL ≤ energyMT then 3
    else if ENERGY_THRESHOLDS_LOCAL ≤ energyMT then 2
    else 1
  else if 0 < impactProbability ∧ ENERGY_THRESHOLDS_LOCAL ≤ energyMT then 1
  else 0

/-- `calculateTorinoScale(impactProbability, energyMT)` (part_018 lines
96-170).  The two `throw new Error(...)` validation paths are modelled by
`Except.error`; on success the JavaScript wraps the level in a result
object together with fixed presentation strings (color, zone, description,
recommendation), which carry no further computational content, so the
embedding returns the level itself. -/
def calculateTorinoScale (impactProbability energyMT : ℚ) : Except String ℕ :=
  if impactProbability < 0 ∨ 1 < impactProbability then
    .error "Impact probability must be between 0 and 1"
  else if energyMT < 0 then
    .error "Energy must be non-negative"
  else
    .ok (torinoLevel impactProbability energyMT)

/-! ### Closest-approach search (src/backend/services/ephemeris.service.js) -/

/-- JavaScript numbers as they occur in the closest-approach search:
an exact finite value, `Infinity`, or `NaN`. -/
inductive JSNum where
  | num (q : ℚ)
  | inf
  | nan
  deriving DecidableEq, Repr

/-- The JavaScript `<` comparison: any comparison involving `NaN` is
false; every finite number is below `Infinity`. -/
def JSNum.ltb : JSNum → JSNum → Bool
  | .num a, .num b => a < b
  | .num _, .inf => true
  | _, _ => false

/-- Division of a JavaScript number by a positive finite constant
(used for `minDistance / AU_TO_KM`). -/
def JSNum.divQ : JSNum → ℚ → JSNum
  | .num a, c => .num (a / c)
  | .inf, _ => .inf
  | .nan, _ => .nan

/-- `AU_TO_KM = 149597870.7` (keplerianElements module). -/
def AU_TO_KM_Q : ℚ := 149597870.7

/-- One sample of a propagated trajectory, as consumed by
`findClosestApproach`.  The `date` and `julianDate` of the sample are
modelled by a single Julian-date stamp (`NaN` when the requested range was
invalid); the geocentric position / velocity payload of the sample plays
no role in the search and is abstracted away. -/
structure TrajPoint where
  julianDate : JSNum
  distanceKm : JSNum
  deriving DecidableEq, Repr

/-- The search loop of `findClosestApproach` (ephemeris.service.js lines
337-342 and 351-356): fold over the trajectory keeping the running
`minDistance` (initially `Infinity`) and the current `closestApproach`
(initially `null`). -/
def scanMin : List TrajPoint → JSNum → Option TrajPoint → JSNum × Option TrajPoint
  | [], m, c => (m, c)
  | p :: rest, m, c =>
    if p.distanceKm.ltb m then scanMin rest p.distanceKm (some p)
    else scanMin rest m c

/-- The result object of `findClosestApproach` (lines 359-366).  The
JavaScript `closestApproach?.date` / `?.julianDate` optional-chaining
(yielding `undefined` on `null`) is `Option.map`. -/
structure CloseApproachResult where
  date : Option JSNum
  julianDate : Option JSNum
  distanceKm : JSNum
  distanceAU : JSNum
  deriving DecidableEq, Repr

/-- `findClosestApproach` (ephemeris.service.js lines 331-367),
parameterised by the coarse 365-point trajectory produced by
`propagateTrajectory(elements, start, end, 365)` and by the refinement
trajectory (±7 days around the coarse minimum, 200 points) produced for a
found coarse minimum.  The two-phase search and the construction of the
result are embedded verbatim. -/
def findClosestApproachFrom (coarse : List TrajPoint)
    (refine : TrajPoint → List TrajPoint) : CloseApproachResult :=
  let s1 := scanMin coarse .inf none
  let s2 :=
    match s1.2 with
    | none => s1
    | some p => scanMin (refine p) s1.1 s1.2
  { date := s2.2.map (·.julianDate)
    julianDate := s2.2.map (·.julianDate)
    distanceKm := s2.1
    distanceAU := s2.1.divQ AU_TO_KM_Q }

/-! ### Calendar date and Julian date (src/unnamed/part_017, keplerianElements
module, lines 498-560) -/

/-- A UTC calendar instant as read off a JavaScript `Date` by
`getUTCFullYear` / `getUTCMonth`+1 / `getUTCDate` / `getUTCHours` /
`getUTCMinutes` / `getUTCSeconds`.  (`dateToJulianDate` reads no
sub-second field, and `julianDateToDate` produces none.) -/
structure DateTime where
  year : ℤ
  month : ℤ
  day : ℤ
  hour : ℤ
  minute : ℤ
  second : ℤ
  deriving DecidableEq, Repr

/-- `dateToJulianDate(date)` (part_017 lines 498-524): the Meeus
calendar-to-Julian-date algorithm.  `Math.floor` is `Int.floor` on the
exact rational value. -/
def dateToJulianDate (dt : DateTime) : ℚ :=
  let dayFraction : ℚ := ((dt.hour : ℚ) + (dt.minute : ℚ) / 60 + (dt.second : ℚ) / 3600) / 24
  let year : ℤ := if dt.month ≤ 2 then dt.year - 1 else dt.year
  let month : ℤ := if dt.month ≤ 2 then dt.month + 12 else dt.month
  let A : ℤ := ⌊(year : ℚ) / 100⌋
  let B : ℤ := 2 - A + ⌊(A : ℚ) / 4⌋
  (⌊(365.25 : ℚ) * ((year : ℚ) + 4716)⌋ : ℚ) + (⌊(30.6001 : ℚ) * ((month : ℚ) + 1)⌋ : ℚ)
    + (dt.day : ℚ) + dayFraction + (B : ℚ) - 1524.5

/-- `julianDateToDate(jd)` (part_017 lines 532-560): the inverse Meeus
algorithm.  The final `Date.UTC(year, month - 1, dayInt, hours, minutes,
seconds)` is the calendar instant with exactly those fields. -/
def julianDateToDate (jd : ℚ) : DateTime :=
  let Z : ℤ := ⌊jd + 0.5⌋
  let F : ℚ := jd + 0.5 - (Z : ℚ)
  let A : ℤ :=
    if Z < 2299161 then Z
    else
      let alpha : ℤ := ⌊((Z : ℚ) - 1867216.25) / 36524.25⌋
      Z + 1 + alpha - ⌊(alpha : ℚ) / 4⌋
  let B : ℤ := A + 1524
  let C : ℤ := ⌊((B : ℚ) - 122.1) / 365.25⌋
  let D : ℤ := ⌊(365.25 : ℚ) * (C : ℚ)⌋
  let E : ℤ := ⌊((B : ℚ) - (D : ℚ)) / 30.6001⌋
  let day : ℚ := (B : ℚ) - (D : ℚ) - (⌊(30.6001 : ℚ) * (E : ℚ)⌋ : ℚ) + F
  let month : ℤ := if E < 14 then E - 1 else E - 13
  let year : ℤ := if 2 < month then C - 4716 else C - 4715
  let dayInt : ℤ := ⌊day⌋
  let dayFrac : ℚ := day - (dayInt : ℚ)
  let hours : ℤ := ⌊dayFrac * 24⌋
  let minutes : ℤ := ⌊(dayFrac * 24 - (hours : ℚ)) * 60⌋
  let seconds : ℤ := ⌊((dayFrac * 24 - (hours : ℚ)) * 60 - (minutes : ℚ)) * 60⌋
  ⟨year, month, dayInt, hours, minutes, seconds⟩

/-- Number of days of month `m` of Gregorian year `y`, for delimiting the
valid calendar dates the round-trip contract quantifies over. -/
def daysInMonth (y m : ℤ) : ℤ :=
  if m = 2 then (if y % 4 = 0 ∧ (y % 100 ≠ 0 ∨ y % 400 = 0) then 29 else 28)
  else if m = 4 ∨ m = 6 ∨ m = 9 ∨ m = 11 then 30
  else 31

/-- A well-formed UTC calendar instant. -/
def ValidDateTime (dt : DateTime) : Prop :=
  1 ≤ dt.month ∧ dt.month ≤ 12 ∧ 1 ≤ dt.day ∧ dt.day ≤ daysInMonth dt.year dt.month ∧
    0 ≤ dt.hour ∧ dt.hour ≤ 23 ∧ 0 ≤ dt.minute ∧ dt.minute ≤ 59 ∧
    0 ≤ dt.second ∧ dt.second ≤ 59

instance (dt : DateTime) : Decidable (ValidDateTime dt) := by
  unfold ValidDateTime; infer_instance

/-- Integer form of the date part of `dateToJulianDate`: the Julian day
number of noon of the given calendar day, so that
`dateToJulianDate dt = jdnInt y m d + dayFraction - 0.5`.
All divisions are Euclidean (the dividends are positive throughout the
supported range, where Euclidean division agrees with `Math.floor` of the
exact quotient). -/
def jdnInt (y m d : ℤ) : ℤ :=
  let year := if m ≤ 2 then y - 1 else y
  let month := if m ≤ 2 then m + 12 else m
  let A := year / 100
  let B := 2 - A + A / 4
  1461 * (year + 4716) / 4 + 306001 * (month + 1) / 10000 + d + B - 1524

/-- Integer form of the date part of `julianDateToDate`, mapping a Julian
day number to (year, month, day). -/
def invDateInt (z : ℤ) : ℤ × ℤ × ℤ :=
  let A := if z < 2299161 then z else
    let alpha := (4 * z - 7468865) / 146097
    z + 1 + alpha - alpha / 4
  let B := A + 1524
  let C := (20 * B - 2442) / 7305
  let D := 1461 * C / 4
  let E := 10000 * (B - D) / 306001
  let dayI := B - D - 306001 * E / 10000
  let month := if E < 14 then E - 1 else E - 13
  let year := if 2 < month then C - 4716 else C - 4715
  (year, month, dayI)

/-! ### Helper lemmas for the Julian-date round trip -/

/-- Floor of an exact rational quotient of integers is Euclidean division. -/
theorem floor_intCast_div (a b : ℤ) (hb : 0 < b) : ⌊(a : ℚ) / (b : ℚ)⌋ = a / b := by
  have hb' : (0 : ℚ) < (b : ℚ) := by exact_mod_cast hb
  have e := Int.ediv_add_emod a b
  have r1 := Int.emod_nonneg a (by omega : b ≠ 0)
  have r2 := Int.emod_lt_of_pos a hb
  rw [Int.floor_eq_iff]
  constructor
  · rw [le_div_iff₀ hb']
    have : ((b * (a / b) : ℤ) : ℚ) ≤ ((a : ℤ) : ℚ) := by exact_mod_cast by omega
    push_cast at this ⊢
    linarith
  · rw [div_lt_iff₀ hb']
    have : ((a : ℤ) : ℚ) < ((b * (a / b) + b : ℤ) : ℚ) := by exact_mod_cast by omega
    push_cast at this ⊢
    linarith

set_option maxHeartbeats 2000000 in
/-- The Gregorian-to-Julian century correction of the inverse Meeus
algorithm cancels the `2 - A + A/4` term of the forward algorithm
throughout the supported range. -/
theorem century_correction (y' zoff z : ℤ)
    (hy1 : 1899 ≤ y') (hy2 : y' ≤ 2200)
    (hz : z = 1461 * (y' + 4716) / 4 + (2 - y' / 100 + y' / 100 / 4) - 1524 + zoff)
    (hlo : 123 ≤ zoff) (hhi : zoff ≤ 490)
    (hc2 : y' = 2099 ∨ y' = 2199 → zoff ≤ 487)
    (hc3 : y' = 1899 → zoff ≤ 487) :
    ¬ z < 2299161 ∧
      z + 1 + (4 * z - 7468865) / 146097 - (4 * z - 7468865) / 146097 / 4 + 1524
        = 1461 * (y' + 4716) / 4 + zoff := by
  have hA : y' / 100 = 18 ∨ y' / 100 = 19 ∨ y' / 100 = 20 ∨ y' / 100 = 21 ∨ y' / 100 = 22 := by
    omega
  rcases hA with h | h | h | h | h <;> omega

/-- The year-recovery division of the inverse Meeus algorithm. -/
theorem julian_recovery (n zoff : ℤ)
    (hlo : 123 ≤ zoff)
    (hhi : zoff ≤ 487 + (if n % 4 = 3 then 1 else 0)) :
    (20 * (1461 * n / 4 + zoff) - 2442) / 7305 = n := by
  split_ifs at hhi <;> omega

set_option maxHeartbeats 1000000 in
/-- The month-recovery division of the inverse Meeus algorithm, over the
shifted months `3..14` (March through shifted February). -/
theorem month_recovery (m' d : ℤ) (h3 : 3 ≤ m') (h14 : m' ≤ 14)
    (hd1 : 1 ≤ d)
    (hd2 : d ≤ if m' = 4 ∨ m' = 6 ∨ m' = 9 ∨ m' = 11 then 30
           else if m' = 14 then 29 else 31) :
    10000 * (306001 * (m' + 1) / 10000 + d) / 306001 = m' + 1 := by
  interval_cases m' <;> norm_num at hd2 ⊢ <;> omega

set_option maxHeartbeats 1000000 in
/-- The month-offset table `⌊30.6001 (m'+1)⌋` of the Meeus algorithm. -/
theorem monthTable_facts (m' : ℤ) (h3 : 3 ≤ m') (h14 : m' ≤ 14) :
    122 ≤ 306001 * (m' + 1) / 10000 ∧ 306001 * (m' + 1) / 10000 ≤ 459 ∧
      (m' ≤ 13 → 306001 * (m' + 1) / 10000 ≤ 428) ∧
      (m' = 14 → 306001 * (m' + 1) / 10000 = 459) := by
  interval_cases m' <;> norm_num

/-- Unfolding skeleton for `invDateInt`: its output given the value of
each division stage. -/
theorem invDateInt_spec (z A2 C R E : ℤ)
    (h1 : ¬ z < 2299161)
    (h2 : z + 1 + (4 * z - 7468865) / 146097 - (4 * z - 7468865) / 146097 / 4 = A2)
    (h3 : (20 * (A2 + 1524) - 2442) / 7305 = C)
    (h4 : A2 + 1524 - 1461 * C / 4 = R)
    (h5 : 10000 * R / 306001 = E) :
    invDateInt z
      = (if 2 < (if E < 14 then E - 1 else E - 13) then C - 4716 else C - 4715,
         if E < 14 then E - 1 else E - 13,
         R - 306001 * E / 10000) := by
  simp only [invDateInt]
  rw [if_neg h1, h2, h3, h4, h5]

set_option maxHeartbeats 2000000 in
/-- The integer Meeus round trip: `invDateInt` inverts `jdnInt` on every
valid Gregorian date with year in [1900, 2200]. -/
theorem invDateInt_jdnInt (y m d : ℤ) (hy1 : 1900 ≤ y) (hy2 : y ≤ 2200)
    (hm1 : 1 ≤ m) (hm2 : m ≤ 12) (hd1 : 1 ≤ d) (hd2 : d ≤ daysInMonth y m) :
    invDateInt (jdnInt y m d) = (y, m, d) ∧ 2299161 ≤ jdnInt y m d := by
  have hex : ∃ y' m' : ℤ, (if m ≤ 2 then y - 1 else y) = y' ∧
      (if m ≤ 2 then m + 12 else m) = m' := ⟨_, _, rfl, rfl⟩
  obtain ⟨y', m', hy', hm'⟩ := hex
  have hyb : 1899 ≤ y' ∧ y' ≤ 2200 := by split_ifs at hy' <;> omega
  have hmb : 3 ≤ m' ∧ m' ≤ 14 := by split_ifs at hm' <;> omega
  have hT := monthTable_facts m' hmb.1 hmb.2
  have hz : jdnInt y m d
      = 1461 * (y' + 4716) / 4 + (2 - y' / 100 + y' / 100 / 4) - 1524
        + (306001 * (m' + 1) / 10000 + d) := by
    simp only [jdnInt]
    rw [hy', hm']
    ring
  have hdays : d ≤ if m' = 4 ∨ m' = 6 ∨ m' = 9 ∨ m' = 11 then 30
               else if m' = 14 then 29 else 31 := by
    unfold daysInMonth at hd2
    split_ifs at hd2 ⊢ <;> omega
  have hfeb : m' = 14 → d = 29 → (y' + 4716) % 4 = 3 := by
    intro h14 h29
    unfold daysInMonth at hd2
    split_ifs at hd2 <;> omega
  have hcent : (y' = 2099 ∨ y' = 2199 ∨ y' = 1899) →
      306001 * (m' + 1) / 10000 + d ≤ 487 := by
    intro hc
    unfold daysInMonth at hd2
    rcases hT with ⟨t1, t2, t3, t4⟩
    by_cases h : m' = 14
    · have := t4 h
      split_ifs at hd2 <;> omega
    · have h13 : m' ≤ 13 := by omega
      have := t3 h13
      omega
  have hcc := century_correction y' (306001 * (m' + 1) / 10000 + d) (jdnInt y m d)
    hyb.1 hyb.2 hz (by omega) (by omega)
    (fun h => hcent (by omega)) (fun h => hcent (by omega))
  have hjr := julian_recovery (y' + 4716) (306001 * (m' + 1) / 10000 + d)
    (by omega)
    (by
      rcases hT with ⟨t1, t2, t3, t4⟩
      split_ifs with hmod
      · omega
      · by_cases h : m' = 14
        · have := t4 h
          have hd29 : d ≤ 28 := by
            rcases Int.lt_or_le d 29 with h' | h'
            · omega
            · have hdd : d = 29 := by
                have := hdays
                split_ifs at this <;> omega
              exact absurd (hfeb h hdd) hmod
          omega
        · have h13 : m' ≤ 13 := by omega
          have := t3 h13
          omega)
  have hmr := month_recovery m' d hmb.1 hmb.2 hd1 hdays
  refine ⟨?_, by omega⟩
  have hspec := invDateInt_spec (jdnInt y m d)
    (1461 * (y' + 4716) / 4 + (306001 * (m' + 1) / 10000 + d) - 1524)
    (y' + 4716) (306001 * (m' + 1) / 10000 + d) (m' + 1)
    hcc.1 (by omega) (by omega) (by omega) hmr
  rw [hspec]
  refine Prod.ext ?_ (Prod.ext ?_ ?_)
  · simp only
    split_ifs at hy' hm' ⊢ <;> omega
  · simp only
    split_ifs at hy' hm' ⊢ <;> omega
  · simp only
    omega

/-- The rational `dateToJulianDate` decomposes as integer Julian day
number plus day fraction minus one half. -/
theorem dateToJulianDate_eq_jdnInt (dt : DateTime) :
    dateToJulianDate dt
      = (jdnInt dt.year dt.month dt.day : ℚ)
        + ((dt.hour : ℚ) + (dt.minute : ℚ) / 60 + (dt.second : ℚ) / 3600) / 24 - 0.5 := by
  obtain ⟨y, m, d, h, mi, s⟩ := dt
  simp only [dateToJulianDate, jdnInt]
  have h1 : ∀ x : ℤ, ⌊(365.25 : ℚ) * ((x : ℚ) + 4716)⌋ = 1461 * (x + 4716) / 4 := by
    intro x
    rw [show (365.25 : ℚ) * ((x : ℚ) + 4716) = ((1461 * (x + 4716) : ℤ) : ℚ) / ((4 : ℤ) : ℚ) by
      push_cast; ring]
    exact floor_intCast_div _ _ (by norm_num)
  have h2 : ∀ x : ℤ, ⌊(30.6001 : ℚ) * ((x : ℚ) + 1)⌋ = 306001 * (x + 1) / 10000 := by
    intro x
    rw [show (30.6001 : ℚ) * ((x : ℚ) + 1) = ((306001 * (x + 1) : ℤ) : ℚ) / ((10000 : ℤ) : ℚ) by
      push_cast; ring]
    exact floor_intCast_div _ _ (by norm_num)
  have h3 : ∀ x : ℤ, ⌊(x : ℚ) / 100⌋ = x / 100 := by
    intro x
    rw [show ((100 : ℚ)) = ((100 : ℤ) : ℚ) by norm_num]
    exact floor_intCast_div _ _ (by norm_num)
  have h4 : ∀ x : ℤ, ⌊(x : ℚ) / 4⌋ = x / 4 := by
    intro x
    rw [show ((4 : ℚ)) = ((4 : ℤ) : ℚ) by norm_num]
    exact floor_intCast_div _ _ (by norm_num)
  split_ifs <;>
    · rw [h1, h2, h3, h4]
      push_cast
      ring

/-- Unfolding skeleton for the rational `julianDateToDate` given a
decomposition of the input into integer part and day fraction. -/
theorem julianDateToDate_spec (jd : ℚ) (N yy mm dd : ℤ) (F : ℚ)
    (hsum : jd + 0.5 = (N : ℚ) + F) (hF0 : 0 ≤ F) (hF1 : F < 1)
    (hN : ¬ N < 2299161)
    (hinv : invDateInt N = (yy, mm, dd)) :
    julianDateToDate jd
      = ⟨yy, mm, dd,
         ⌊F * 24⌋,
         ⌊(F * 24 - (⌊F * 24⌋ : ℚ)) * 60⌋,
         ⌊((F * 24 - (⌊F * 24⌋ : ℚ)) * 60 - (⌊(F * 24 - (⌊F * 24⌋ : ℚ)) * 60⌋ : ℚ)) * 60⌋⟩ := by
  have hFz : ⌊F⌋ = 0 := Int.floor_eq_zero_iff.mpr ⟨hF0, hF1⟩
  have hZ : ⌊jd + 0.5⌋ = N := by
    rw [hsum, Int.floor_int_add, hFz, add_zero]
  have hFeq : jd + 0.5 - (N : ℚ) = F := by linarith
  have halpha : ⌊((N : ℚ) - 1867216.25) / 36524.25⌋ = (4 * N - 7468865) / 146097 := by
    rw [show ((N : ℚ) - 1867216.25) / 36524.25
        = ((4 * N - 7468865 : ℤ) : ℚ) / ((146097 : ℤ) : ℚ) by push_cast; ring]
    exact floor_intCast_div _ _ (by norm_num)
  have hdiv4 : ∀ x : ℤ, ⌊(x : ℚ) / 4⌋ = x / 4 := fun x => by
    rw [show ((4 : ℚ)) = ((4 : ℤ) : ℚ) by norm_num]
    exact floor_intCast_div _ _ (by norm_num)
  have hC : ∀ x : ℤ, ⌊((x : ℚ) - 122.1) / 365.25⌋ = (20 * x - 2442) / 7305 := fun x => by
    rw [show ((x : ℚ) - 122.1) / 365.25 = ((20 * x - 2442 : ℤ) : ℚ) / ((7305 : ℤ) : ℚ) by
      push_cast; ring]
    exact floor_intCast_div _ _ (by norm_num)
  have hD : ∀ x : ℤ, ⌊(365.25 : ℚ) * (x : ℚ)⌋ = 1461 * x / 4 := fun x => by
    rw [show (365.25 : ℚ) * (x : ℚ) = ((1461 * x : ℤ) : ℚ) / ((4 : ℤ) : ℚ) by push_cast; ring]
    exact floor_intCast_div _ _ (by norm_num)
  have hE : ∀ x y : ℤ, ⌊((x : ℚ) - (y : ℚ)) / 30.6001⌋ = 10000 * (x - y) / 306001 := fun x y => by
    rw [show ((x : ℚ) - (y : ℚ)) / 30.6001 = ((10000 * (x - y) : ℤ) : ℚ) / ((306001 : ℤ) : ℚ) by
      push_cast; ring]
    exact floor_intCast_div _ _ (by norm_num)
  have hQ : ∀ x : ℤ, ⌊(30.6001 : ℚ) * (x : ℚ)⌋ = 306001 * x / 10000 := fun x => by
    rw [show (30.6001 : ℚ) * (x : ℚ) = ((306001 * x : ℤ) : ℚ) / ((10000 : ℤ) : ℚ) by
      push_cast; ring]
    exact floor_intCast_div _ _ (by norm_num)
  have hcomb : ∀ b e2 q : ℤ, (b : ℚ) - (e2 : ℚ) - (q : ℚ) + F = ((b - e2 - q : ℤ) : ℚ) + F :=
    fun b e2 q => by push_cast; ring
  have hfl : ∀ x : ℤ, ⌊(x : ℚ) + F⌋ = x := fun x => by
    rw [Int.floor_int_add, hFz, add_zero]
  have hsub : ∀ x : ℤ, ((x : ℚ) + F) - (x : ℚ) = F := fun x => by ring
  simp only [julianDateToDate, hZ, hFeq, if_neg hN, halpha, hdiv4, hC, hD, hE, hQ, hcomb,
    hfl, hsub]
  simp only [invDateInt, if_neg hN, Prod.mk.injEq] at hinv
  rw [DateTime.mk.injEq]
  exact ⟨hinv.1, hinv.2.1, hinv.2.2, rfl, rfl, rfl⟩

/-- The day fraction of a valid time of day is recovered exactly by the
hour/minute/second floors of `julianDateToDate`. -/
theorem time_recovery (h mi s : ℤ) (hm0 : 0 ≤ mi) (hm : mi ≤ 59)
    (hs0 : 0 ≤ s) (hs : s ≤ 59) :
    ⌊(((h : ℚ) + (mi : ℚ) / 60 + (s : ℚ) / 3600) / 24) * 24⌋ = h ∧
    ⌊((((h : ℚ) + (mi : ℚ) / 60 + (s : ℚ) / 3600) / 24) * 24 - (h : ℚ)) * 60⌋ = mi ∧
    ⌊(((((h : ℚ) + (mi : ℚ) / 60 + (s : ℚ) / 3600) / 24) * 24 - (h : ℚ)) * 60 - (mi : ℚ)) * 60⌋
      = s := by
  have c1 : (0 : ℚ) ≤ (mi : ℚ) := by exact_mod_cast hm0
  have c2 : (mi : ℚ) ≤ 59 := by exact_mod_cast hm
  have c3 : (0 : ℚ) ≤ (s : ℚ) := by exact_mod_cast hs0
  have c4 : (s : ℚ) ≤ 59 := by exact_mod_cast hs
  have e1 : (((h : ℚ) + (mi : ℚ) / 60 + (s : ℚ) / 3600) / 24) * 24
      = (h : ℚ) + ((mi : ℚ) / 60 + (s : ℚ) / 3600) := by ring
  refine ⟨?_, ?_, ?_⟩
  · rw [e1, Int.floor_int_add, Int.floor_eq_zero_iff.mpr ⟨by positivity, by linarith⟩, add_zero]
  · have e2 : ((((h : ℚ) + (mi : ℚ) / 60 + (s : ℚ) / 3600) / 24) * 24 - (h : ℚ)) * 60
        = (mi : ℚ) + (s : ℚ) / 60 := by ring
    rw [e2, Int.floor_int_add, Int.floor_eq_zero_iff.mpr ⟨by positivity, by linarith⟩, add_zero]
  · have e3 : (((((h : ℚ) + (mi : ℚ) / 60 + (s : ℚ) / 3600) / 24) * 24 - (h : ℚ)) * 60
        - (mi : ℚ)) * 60 = (s : ℚ) := by ring
    rw [e3, Int.floor_intCast]

/-- Full round trip of the rational model on valid dates in [1900, 2200]:
the inverse recovers the calendar instant exactly. -/
theorem julianDateToDate_dateToJulianDate (dt : DateTime) (hv : ValidDateTime dt)
    (hy1 : 1900 ≤ dt.year) (hy2 : dt.year ≤ 2200) :
    julianDateToDate (dateToJulianDate dt) = dt := by
  obtain ⟨y, m, d, h, mi, s⟩ := dt
  obtain ⟨hm1, hm2, hd1, hd2, hh0, hh1, hmi0, hmi1, hs0, hs1⟩ := hv
  have hint := invDateInt_jdnInt y m d hy1 hy2 hm1 hm2 hd1 hd2
  have hF0 : (0 : ℚ) ≤ ((h : ℚ) + (mi : ℚ) / 60 + (s : ℚ) / 3600) / 24 := by
    have k1 : (0 : ℚ) ≤ (h : ℚ) := by exact_mod_cast hh0
    have k2 : (0 : ℚ) ≤ (mi : ℚ) := by exact_mod_cast hmi0
    have k3 : (0 : ℚ) ≤ (s : ℚ) := by exact_mod_cast hs0
    positivity
  have hF1 : ((h : ℚ) + (mi : ℚ) / 60 + (s : ℚ) / 3600) / 24 < 1 := by
    have k1 : (h : ℚ) ≤ 23 := by exact_mod_cast hh1
    have k2 : (mi : ℚ) ≤ 59 := by exact_mod_cast hmi1
    have k3 : (s : ℚ) ≤ 59 := by exact_mod_cast hs1
    rw [div_lt_one (by norm_num)]
    linarith
  have hspec := julianDateToDate_spec (dateToJulianDate ⟨y, m, d, h, mi, s⟩)
    (jdnInt y m d) y m d (((h : ℚ) + (mi : ℚ) / 60 + (s : ℚ) / 3600) / 24)
    (by rw [dateToJulianDate_eq_jdnInt]; ring) hF0 hF1 (by omega) hint.1
  rw [hspec]
  have ht := time_recovery h mi s hmi0 hmi1 hs0 hs1
  rw [DateTime.mk.injEq]
  refine ⟨rfl, rfl, rfl, ht.1, ?_, ?_⟩
  · rw [ht.1]
    exact ht.2.1
  · rw [ht.1]
    rw [show (⌊((((h : ℚ) + (mi : ℚ) / 60 + (s : ℚ) / 3600) / 24) * 24 - ((h : ℤ) : ℚ)) * 60⌋ : ℤ)
        = mi from ht.2.2.symm ▸ ht.2.1]
    exact ht.2.2

/-- C5: `dateToJulianDate` maps the UTC instant 2000-01-01T12:00:00Z to
exactly 2451545.0, and for every valid calendar date with year in
[1900, 2200] the round trip through `julianDateToDate` recovers the same
instant exactly (in particular, to within 1 second). -/
theorem C5_julian_date_contract :
    dateToJulianDate ⟨2000, 1, 1, 12, 0, 0⟩ = 2451545 ∧
    ∀ dt : DateTime, ValidDateTime dt → 1900 ≤ dt.year → dt.year ≤ 2200 →
      julianDateToDate (dateToJulianDate dt) = dt := by
  constructor
  · rw [dateToJulianDate_eq_jdnInt]
    have hj : jdnInt 2000 1 1 = 2451545 := by decide
    rw [hj]
    norm_num
  · exact fun dt hv h1 h2 => julianDateToDate_dateToJulianDate dt hv h1 h2

/-- Witness for C5 at the concrete date 1987-06-19T12:34:56Z. -/
theorem C5_julian_date_contract_witness :
    (ValidDateTime ⟨1987, 6, 19, 12, 34, 56⟩ ∧ (1900 : ℤ) ≤ 1987 ∧ (1987 : ℤ) ≤ 2200) ∧
      julianDateToDate (dateToJulianDate ⟨1987, 6, 19, 12, 34, 56⟩)
        = ⟨1987, 6, 19, 12, 34, 56⟩ :=
  ⟨⟨by decide, by norm_num, by norm_num⟩,
   C5_julian_date_contract.2 ⟨1987, 6, 19, 12, 34, 56⟩ (by decide) (by norm_num) (by norm_num)⟩

/-! ### Claim C1: proximity score -/

/-- C1 (code bug evidence): at the failing inputs 3,000,000 km and
5,000,000 km the proximity score is -40 and 0 respectively, so
`calculateProximityScore` increases with distance across the
moderate/safe band boundary and leaves the documented 0-100 range,
contradicting the claimed monotone non-increase.  (At distance 0 the score
is 100 and at the safe threshold it is 0, as claimed.) -/
theorem C1_calculateProximityScore_eval :
    calculateProximityScore 3000000 = -40 ∧ calculateProximityScore 5000000 = 0 ∧
      calculateProximityScore 3000000 < calculateProximityScore 5000000 ∧
      calculateProximityScore 0 = 100 ∧ calculateProximityScore 7500000 = 0 := by
  refine ⟨?_, ?_, ?_, ?_, ?_⟩ <;>
    norm_num [calculateProximityScore, DISTANCE_THRESHOLDS_LUNAR, DISTANCE_THRESHOLDS_CLOSE,
      DISTANCE_THRESHOLDS_MODERATE, DISTANCE_THRESHOLDS_SAFE]

/-! ### Claim C10: Torino scale monotonicity -/

set_option maxHeartbeats 3200000 in
/-- The Torino level ladder is non-decreasing in the impact probability
at fixed energy. -/
theorem torinoLevel_mono_prob (p₁ p₂ E : ℚ) (hp0 : 0 ≤ p₁) (hp : p₁ ≤ p₂) :
    torinoLevel p₁ E ≤ torinoLevel p₂ E := by
  unfold torinoLevel ENERGY_THRESHOLDS_LOCAL ENERGY_THRESHOLDS_REGIONAL ENERGY_THRESHOLDS_GLOBAL
  split_ifs <;>
    first
      | decide
      | (simp only [not_and_or, not_lt, not_le] at *
         try casesm* _ ∨ _
         all_goals first | decide | linarith)

set_option maxHeartbeats 3200000 in
/-- The Torino level ladder is non-decreasing in the energy at fixed
probability. -/
theorem torinoLevel_mono_energy (p E₁ E₂ : ℚ) (hE0 : 0 ≤ E₁) (hE : E₁ ≤ E₂) :
    torinoLevel p E₁ ≤ torinoLevel p E₂ := by
  unfold torinoLevel ENERGY_THRESHOLDS_LOCAL ENERGY_THRESHOLDS_REGIONAL ENERGY_THRESHOLDS_GLOBAL
  split_ifs <;>
    first
      | decide
      | (simp only [not_and_or, not_lt, not_le] at *
         try casesm* _ ∨ _
         all_goals first | decide | linarith)

/-- C10: on the valid domain (probability in [0,1], energy nonnegative)
`calculateTorinoScale` succeeds and returns `torinoLevel`, and the
returned level is non-decreasing in the impact probability at fixed
energy and non-decreasing in the energy at fixed probability. -/
theorem C10_calculateTorinoScale_monotone (p₁ p₂ E₁ E₂ : ℚ)
    (hp0 : 0 ≤ p₁) (hp : p₁ ≤ p₂) (hp1 : p₂ ≤ 1) (hE0 : 0 ≤ E₁) (hE : E₁ ≤ E₂) :
    calculateTorinoScale p₁ E₁ = Except.ok (torinoLevel p₁ E₁) ∧
    calculateTorinoScale p₂ E₁ = Except.ok (torinoLevel p₂ E₁) ∧
    torinoLevel p₁ E₁ ≤ torinoLevel p₂ E₁ ∧
    torinoLevel p₁ E₁ ≤ torinoLevel p₁ E₂ := by
  refine ⟨?_, ?_, torinoLevel_mono_prob p₁ p₂ E₁ hp0 hp,
    torinoLevel_mono_energy p₁ E₁ E₂ hE0 hE⟩
  · unfold calculateTorinoScale
    rw [if_neg (by push_neg; constructor <;> linarith), if_neg (by linarith)]
  · unfold calculateTorinoScale
    rw [if_neg (by push_neg; constructor <;> linarith), if_neg (by linarith)]

/-- Witness for C10 at probability 0.001 against 0.5, energies 1 and
2000: levels 4, 5 respectively at energy 1 (and level 4 again at energy 2000). -/
theorem C10_calculateTorinoScale_monotone_witness :
    ((0 : ℚ) ≤ 0.001 ∧ (0.001 : ℚ) ≤ 0.5 ∧ (0.5 : ℚ) ≤ 1 ∧ (0 : ℚ) ≤ 1 ∧ (1 : ℚ) ≤ 2000) ∧
      (calculateTorinoScale 0.001 1 = Except.ok (torinoLevel 0.001 1) ∧
       calculateTorinoScale 0.5 1 = Except.ok (torinoLevel 0.5 1) ∧
       torinoLevel 0.001 1 ≤ torinoLevel 0.5 1 ∧
       torinoLevel 0.001 1 ≤ torinoLevel 0.001 2000) ∧
      torinoLevel 0.001 1 = 4 ∧ torinoLevel 0.5 1 = 5 ∧ torinoLevel 0.001 2000 = 4 :=
  ⟨⟨by norm_num, by norm_num, by norm_num, by norm_num, by norm_num⟩,
   C10_calculateTorinoScale_monotone 0.001 0.5 1 2000
     (by norm_num) (by norm_num) (by norm_num) (by norm_num) (by norm_num),
   by norm_num [torinoLevel, ENERGY_THRESHOLDS_LOCAL, ENERGY_THRESHOLDS_REGIONAL,
     ENERGY_THRESHOLDS_GLOBAL],
   by norm_num [torinoLevel, ENERGY_THRESHOLDS_LOCAL, ENERGY_THRESHOLDS_REGIONAL,
     ENERGY_THRESHOLDS_GLOBAL],
   by norm_num [torinoLevel, ENERGY_THRESHOLDS_LOCAL, ENERGY_THRESHOLDS_REGIONAL,
     ENERGY_THRESHOLDS_GLOBAL]⟩

/-! ### Claim C2: closest approach over a degenerate range -/

/-- If the search loop starting from a `null` closest approach never
finds a point, the running minimum is still its initial value. -/
theorem scanMin_none_eq (l : List TrajPoint) (m : JSNum)
    (h : (scanMin l m none).2 = none) : (scanMin l m none).1 = m := by
  induction l generalizing m with
  | nil => rfl
  | cons p rest ih =>
    by_cases hlt : p.distanceKm.ltb m
    · exfalso
      have hsome : ∀ (l' : List TrajPoint) (m' : JSNum) (q : TrajPoint),
          (scanMin l' m' (some q)).2.isSome := by
        intro l'
        induction l' with
        | nil => intro m' q; rfl
        | cons r rest' ih' =>
          intro m' q
          unfold scanMin
          by_cases h' : r.distanceKm.ltb m'
          · rw [if_pos h']; exact ih' _ _
          · rw [if_neg h']; exact ih' _ _
      unfold scanMin at h
      rw [if_pos hlt] at h
      have := hsome rest p.distanceKm p
      rw [h] at this
      exact Bool.noConfusion this
    · unfold scanMin at h ⊢
      rw [if_neg hlt] at h ⊢
      exact ih m h

/-- C2 (amended): when the two-phase search finds no minimum-distance
point (every distance comparison fails, as on a `NaN`-valued degenerate
range), `findClosestApproach` returns sentinel values - `Infinity` for
`distanceKm`/`distanceAU` and `undefined` (`none`) for `date` and
`julianDate` - rather than an explicit not-found state. -/
theorem C2_findClosestApproach_sentinel (coarse : List TrajPoint)
    (refine : TrajPoint → List TrajPoint)
    (h : (scanMin coarse JSNum.inf none).2 = none) :
    findClosestApproachFrom coarse refine =
      { date := none, julianDate := none,
        distanceKm := JSNum.inf, distanceAU := JSNum.inf } := by
  have hm := scanMin_none_eq coarse JSNum.inf h
  unfold findClosestApproachFrom
  rw [show scanMin coarse JSNum.inf none = (JSNum.inf, none) from Prod.ext hm h]
  rfl

set_option maxRecDepth 4000 in
/-- C2 (counterexample to the claim as stated): on the 365-point
trajectory produced from a degenerate (`NaN`-dated) range, the result of
the search carries the sentinel `Infinity` distance and `undefined` date,
not an explicit not-found state. -/
theorem C2_findClosestApproach_counterexample :
    (findClosestApproachFrom (List.replicate 365 ⟨JSNum.nan, JSNum.nan⟩)
        (fun _ => [])).distanceKm = JSNum.inf ∧
      (findClosestApproachFrom (List.replicate 365 ⟨JSNum.nan, JSNum.nan⟩)
        (fun _ => [])).date = none := by
  decide

/-- Witness for the amended C2 statement at a concrete degenerate
two-point trajectory. -/
theorem C2_findClosestApproach_sentinel_witness :
    (scanMin [⟨JSNum.nan, JSNum.nan⟩, ⟨JSNum.nan, JSNum.nan⟩] JSNum.inf none).2 = none ∧
      findClosestApproachFrom [⟨JSNum.nan, JSNum.nan⟩, ⟨JSNum.nan, JSNum.nan⟩] (fun _ => [])
        = { date := none, julianDate := none,
            distanceKm := JSNum.inf, distanceAU := JSNum.inf } :=
  ⟨by decide, C2_findClosestApproach_sentinel _ _ (by decide)⟩

/-! ### Orbital propagator (src/unnamed/part_017, keplerianElements module,
over the reals) -/

/-- `AU_TO_KM` (part_017 line 283). -/
noncomputable def AU_TO_KM : ℝ := 149597870.7

/-- `DEG_TO_RAD` (line 284). -/
noncomputable def DEG_TO_RAD : ℝ := Real.pi / 180

/-- `GRAVITATIONAL_PARAMETER` (line 286), GM of the Sun in SI units. -/
noncomputable def GRAVITATIONAL_PARAMETER : ℝ := 1.32712440018e20

/-- `SECONDS_PER_DAY` (line 287). -/
noncomputable def SECONDS_PER_DAY : ℝ := 86400

/-- The Newton-Raphson loop of `solveKeplerEquation` (lines 303-310):
one fuel unit per iteration; on exhaustion the JavaScript emits a console
warning and returns the best estimate. -/
noncomputable def solveKeplerGo (e tol M : ℝ) : ℕ → ℝ → ℝ
  | 0, E => E
  | n + 1, E =>
    let dE := (E - e * Real.sin E - M) / (1 - e * Real.cos E)
    let E' := E - dE
    if |dE| < tol then E' else solveKeplerGo e tol M n E'

/-- `solveKeplerEquation(M, e, tolerance = 1e-10, maxIterations = 50)`
(part_017 lines 299-315): initial guess `M` for `e < 0.8`, else `π`.
There is no eccentricity validation: the function is total and always
returns a number. -/
noncomputable def solveKeplerEquation (M e : ℝ) (tolerance : ℝ := 1e-10)
    (maxIterations : ℕ := 50) : ℝ :=
  solveKeplerGo e tolerance M maxIterations (if e < 0.8 then M else Real.pi)

/-- JavaScript `Math.atan2(y, x)`. -/
noncomputable def atan2 (y x : ℝ) : ℝ :=
  if 0 < x then Real.arctan (y / x)
  else if x < 0 ∧ 0 ≤ y then Real.arctan (y / x) + Real.pi
  else if x < 0 ∧ y < 0 then Real.arctan (y / x) - Real.pi
  else if x = 0 ∧ 0 < y then Real.pi / 2
  else if x = 0 ∧ y < 0 then -(Real.pi / 2)
  else 0

/-- `eccentricToTrueAnomaly(E, e)` (lines 324-327). -/
noncomputable def eccentricToTrueAnomaly (E e : ℝ) : ℝ :=
  let beta := e / (1 + Real.sqrt (1 - e * e))
  E + 2 * atan2 (beta * Real.sin E) (1 - beta * Real.cos E)

/-- `orbitalRadius(a, e, nu)` (lines 337-339). -/
noncomputable def orbitalRadius (a e nu : ℝ) : ℝ :=
  a * (1 - e * e) / (1 + e * Real.cos nu)

/-- `meanMotion(a)` (lines 347-352). -/
noncomputable def meanMotion (a : ℝ) : ℝ :=
  let aMeters := a * AU_TO_KM * 1000
  Real.sqrt (GRAVITATIONAL_PARAMETER / (aMeters * aMeters * aMeters)) * SECONDS_PER_DAY

/-- The JavaScript `%` operator on numbers: truncated remainder, with the
sign of the dividend. -/
noncomputable def jsMod (a b : ℝ) : ℝ :=
  a - b * (if 0 ≤ a / b then (⌊a / b⌋ : ℝ) else (⌈a / b⌉ : ℝ))

/-- `propagateMeanAnomaly(M0, n, dt)` (lines 362-366): degrees to
radians, advance by mean motion, reduce modulo `2π` into `[0, 2π)`. -/
noncomputable def propagateMeanAnomaly (M0 n dt : ℝ) : ℝ :=
  let M := jsMod (M0 * DEG_TO_RAD + n * dt) (2 * Real.pi)
  if M < 0 then M + 2 * Real.pi else M

/-- The orbital-element record consumed by the propagator (angles in
degrees, semi-major axis in AU, epoch as a Julian date). -/
structure OrbitalElements where
  semiMajorAxis : ℝ
  eccentricity : ℝ
  inclination : ℝ
  longitudeAscNode : ℝ
  argPerihelion : ℝ
  meanAnomaly : ℝ
  epoch : ℝ

/-- A heliocentric-ecliptic position in AU. -/
structure Vec3 where
  x : ℝ
  y : ℝ
  z : ℝ

/-- `keplerToCartesian(elements, targetJD)` (part_017 lines 382-436).
No eccentricity validation is performed; the function is total. -/
noncomputable def keplerToCartesian (elements : OrbitalElements) (targetJD : ℝ) : Vec3 :=
  let a := elements.semiMajorAxis
  let e := elements.eccentricity
  let i := elements.inclination * DEG_TO_RAD
  let omega := elements.longitudeAscNode * DEG_TO_RAD
  let w := elements.argPerihelion * DEG_TO_RAD
  let n := meanMotion a
  let dt := targetJD - elements.epoch
  let M := propagateMeanAnomaly elements.meanAnomaly n dt
  let E := solveKeplerEquation M e
  let nu := eccentricToTrueAnomaly E e
  let r := orbitalRadius a e nu
  let xOrbital := r * Real.cos nu
  let yOrbital := r * Real.sin nu
  let cosOmega := Real.cos omega
  let sinOmega := Real.sin omega
  let cosI := Real.cos i
  let sinI := Real.sin i
  let cosW := Real.cos w
  let sinW := Real.sin w
  let Px := cosOmega * cosW - sinOmega * sinW * cosI
  let Py := sinOmega * cosW + cosOmega * sinW * cosI
  let Pz := sinW * sinI
  let Qx := -cosOmega * sinW - sinOmega * cosW * cosI
  let Qy := -sinOmega * sinW + cosOmega * cosW * cosI
  let Qz := cosW * sinI
  ⟨xOrbital * Px + yOrbital * Qx, xOrbital * Py + yOrbital * Qy, xOrbital * Pz + yOrbital * Qz⟩

/-- The heliocentric distance of the position computed by
`keplerToCartesian` (the norm of the returned vector). -/
noncomputable def helioDistance (elements : OrbitalElements) (targetJD : ℝ) : ℝ :=
  let p := keplerToCartesian elements targetJD
  Real.sqrt (p.x ^ 2 + p.y ^ 2 + p.z ^ 2)

/-! ### Monte Carlo simulator (src/unnamed/part_017, monteCarloSimulator
module) -/

/-- `EARTH_RADIUS_KM` (line 11). -/
noncomputable def EARTH_RADIUS_KM : ℝ := 6371

/-- `EARTH_CAPTURE_RADIUS_KM` (line 12). -/
noncomputable def EARTH_CAPTURE_RADIUS_KM : ℝ := 6500

/-- `MOON_DISTANCE_KM` (line 13). -/
noncomputable def MOON_DISTANCE_KM : ℝ := 384400

/-- Per-element standard deviations (`DEFAULT_UNCERTAINTY`, lines 17-24). -/
structure Uncertainty where
  semiMajorAxis : ℝ
  eccentricity : ℝ
  inclination : ℝ
  longitudeAscNode : ℝ
  argPerihelion : ℝ
  meanAnomaly : ℝ

noncomputable def DEFAULT_UNCERTAINTY : Uncertainty :=
  ⟨0.0001, 0.00001, 0.01, 0.01, 0.01, 0.1⟩

/-- The hidden state of the global `Math.random` generator: the stream of
unit-interval draws it will produce, and a cursor for how many draws have
already been consumed.  The JavaScript functions do not receive this
state as a parameter; the embedding threads it explicitly to expose the
dependence. -/
structure RandState where
  stream : ℕ → ℝ
  cursor : ℕ

/-- One `Math.random()` call: read the next draw and advance the hidden
state. -/
noncomputable def mathRandom (s : RandState) : ℝ × RandState :=
  (s.stream s.cursor, ⟨s.stream, s.cursor + 1⟩)

/-- `randomNormal(mean, stdDev)` (part_017 lines 29-34): Box-Muller from
two `Math.random()` draws. -/
noncomputable def randomNormal (mean stdDev : ℝ) (s : RandState) : ℝ × RandState :=
  let r1 := mathRandom s
  let r2 := mathRandom r1.2
  let z := Real.sqrt (-2 * Real.log r1.1) * Real.cos (2 * Real.pi * r2.1)
  (mean + z * stdDev, r2.2)

/-- `sampleOrbitalElements(elements, uncertainties)` (lines 42-53): six
sequential `randomNormal(0, sigma)` draws, with the eccentricity clamped
into [0, 0.999]. -/
noncomputable def sampleOrbitalElements (elements : OrbitalElements)
    (uncertainties : Uncertainty) (s : RandState) : OrbitalElements × RandState :=
  let r1 := randomNormal 0 uncertainties.semiMajorAxis s
  let r2 := randomNormal 0 uncertainties.eccentricity r1.2
  let r3 := randomNormal 0 uncertainties.inclination r2.2
  let r4 := randomNormal 0 uncertainties.longitudeAscNode r3.2
  let r5 := randomNormal 0 uncertainties.argPerihelion r4.2
  let r6 := randomNormal 0 uncertainties.meanAnomaly r5.2
  (⟨elements.semiMajorAxis + r1.1,
    max 0 (min 0.999 (elements.eccentricity + r2.1)),
    elements.inclination + r3.1,
    elements.longitudeAscNode + r4.1,
    elements.argPerihelion + r5.1,
    elements.meanAnomaly + r6.1,
    elements.epoch⟩, r6.2)

/-- `calculateMinDistance(asteroidElements, targetDate)` (lines 61-81):
asteroid position from the propagator against the simplified
circular-orbit Earth model, distance in km. -/
noncomputable def calculateMinDistance (asteroidElements : OrbitalElements)
    (targetDate : DateTime) : ℝ :=
  let jd : ℝ := ((dateToJulianDate targetDate : ℚ) : ℝ)
  let asteroidPos := keplerToCartesian asteroidElements jd
  let earthAngle := (jd - 2451545.0) * 0.01720279
  let dx := asteroidPos.x - Real.cos earthAngle
  let dy := asteroidPos.y - Real.sin earthAngle
  let dz := asteroidPos.z - 0
  Real.sqrt (dx * dx + dy * dy + dz * dz) * AU_TO_KM

/-- Mutable loop state of `runSimulation` (lines 104-133): the three
hazard counters, the accumulated distances, and the running
minimum/maximum (`minDistance` starts at `Infinity`, modelled by `⊤`). -/
structure SimAcc where
  impacts : ℕ
  closeApproaches : ℕ
  veryClose : ℕ
  distances : List ℝ
  minDistance : WithTop ℝ
  maxDistance : ℝ

/-- One iteration of the `runSimulation` loop (lines 112-133). -/
noncomputable def simStep (orbitalElements : OrbitalElements) (uncertainties : Uncertainty)
    (encounterDate : DateTime) (acc : SimAcc) (s : RandState) : SimAcc × RandState :=
  let r := sampleOrbitalElements orbitalElements uncertainties s
  let distance := calculateMinDistance r.1 encounterDate
  ({ impacts := if distance < EARTH_CAPTURE_RADIUS_KM then acc.impacts + 1 else acc.impacts
     closeApproaches :=
       if distance < MOON_DISTANCE_KM then acc.closeApproaches + 1 else acc.closeApproaches
     veryClose := if distance < 50000 then acc.veryClose + 1 else acc.veryClose
     distances := acc.distances ++ [distance]
     minDistance :=
       if (distance : WithTop ℝ) < acc.minDistance then (distance : WithTop ℝ)
       else acc.minDistance
     maxDistance := if acc.maxDistance < distance then distance else acc.maxDistance }, r.2)

/-- The `for (let i = 0; i < numSimulations; i++)` loop of
`runSimulation`. -/
noncomputable def simLoop (orbitalElements : OrbitalElements) (uncertainties : Uncertainty)
    (encounterDate : DateTime) : ℕ → SimAcc → RandState → SimAcc × RandState
  | 0, acc, s => (acc, s)
  | n + 1, acc, s =>
    let r := simStep orbitalElements uncertainties encounterDate acc s
    simLoop orbitalElements uncertainties encounterDate n r.1 r.2

/-- The `statistics` object of the simulation result (lines 156-164). -/
structure SimStats where
  minDistance : WithTop ℝ
  maxDistance : ℝ
  meanDistance : ℝ
  medianDistance : ℝ
  stdDevDistance : ℝ
  percentile5 : ℝ
  percentile95 : ℝ

/-- The `counts` object of the simulation result (lines 167-172). -/
structure SimCounts where
  impacts : ℕ
  closeApproaches : ℕ
  veryClose : ℕ
  total : ℕ

/-- The result object of `runSimulation` (lines 149-177).  The wall-clock
`simulationTime` metadata (from `Date.now()`) has no numeric content
derived from the inputs and is omitted. -/
structure SimulationResult where
  impactProbability : ℝ
  closeApproachProbability : ℝ
  veryCloseProbability : ℝ
  statistics : SimStats
  counts : SimCounts
  encounterDate : DateTime

/-- `runSimulation({orbitalElements, encounterDate, numSimulations,
uncertainties})` (part_017 lines 93-178).  The sort of the distance array
is `mergeSort` with the ascending comparator; `Math.floor(length * 0.05)`
and `Math.floor(length * 0.95)` are the corresponding exact natural
divisions. -/
noncomputable def runSimulation (orbitalElements : OrbitalElements) (encounterDate : DateTime)
    (numSimulations : ℕ) (uncertainties : Uncertainty) (s : RandState) :
    SimulationResult × RandState :=
  let r := simLoop orbitalElements uncertainties encounterDate numSimulations
    ⟨0, 0, 0, [], ⊤, 0⟩ s
  let acc := r.1
  let sorted := acc.distances.mergeSort (fun a b => decide (a ≤ b))
  let len := acc.distances.length
  let meanDistance := acc.distances.sum / (len : ℝ)
  let medianDistance := sorted.getD (len / 2) 0
  let stdDevDistance :=
    Real.sqrt (((acc.distances.map fun d2 => (d2 - meanDistance) ^ 2).sum) / (len : ℝ))
  let p5 := sorted.getD (len * 5 / 100) 0
  let p95 := sorted.getD (len * 95 / 100) 0
  ({ impactProbability := (acc.impacts : ℝ) / (numSimulations : ℝ)
     closeApproachProbability := (acc.closeApproaches : ℝ) / (numSimulations : ℝ)
     veryCloseProbability := (acc.veryClose : ℝ) / (numSimulations : ℝ)
     statistics := ⟨acc.minDistance, acc.maxDistance, meanDistance, medianDistance,
       stdDevDistance, p5, p95⟩
     counts := ⟨acc.impacts, acc.closeApproaches, acc.veryClose, numSimulations⟩
     encounterDate := encounterDate }, r.2)

/-! ### Kepler solver lemmas (claims C3, C6, C7) -/

/-- For `M = 0` and `e < 0.8` the initial guess is `M = 0`, the first
Newton step is exactly zero, and the solver returns exactly 0. -/
theorem kepler_M0_lowEcc (e tol : ℝ) (n : ℕ) (h8 : e < 0.8) (htol : 0 < tol) (hn : 1 ≤ n) :
    solveKeplerEquation 0 e tol n = 0 := by
  unfold solveKeplerEquation
  rw [if_pos h8]
  obtain ⟨n', rfl⟩ : ∃ n', n = n' + 1 := ⟨n - 1, by omega⟩
  unfold solveKeplerGo
  simp only [Real.sin_zero, Real.cos_zero, mul_zero, mul_one, sub_zero, sub_self, zero_div,
    zero_sub, neg_zero, abs_zero]
  rw [if_pos htol]

/-- For `M = π` and any `e ≥ 0.8` (in particular any `e ≥ 1`) the initial
guess is `π`, the first Newton step is exactly zero, and the solver
silently returns the number `π` - no validation error exists in the
code. -/
theorem kepler_Mpi (e tol : ℝ) (n : ℕ) (h8 : 0.8 ≤ e) (htol : 0 < tol) (hn : 1 ≤ n) :
    solveKeplerEquation Real.pi e tol n = Real.pi := by
  unfold solveKeplerEquation
  rw [if_neg (by linarith)]
  obtain ⟨n', rfl⟩ : ∃ n', n = n' + 1 := ⟨n - 1, by omega⟩
  unfold solveKeplerGo
  simp only [Real.sin_pi, Real.cos_pi, mul_zero, sub_zero, sub_self, zero_div, abs_zero,
    neg_zero]
  rw [if_pos htol]

/-- `0 < sin x - x cos x` on `(0, π]`. -/
theorem sin_sub_mul_cos_pos {x : ℝ} (h0 : 0 < x) (hpi : x ≤ Real.pi) :
    0 < Real.sin x - x * Real.cos x := by
  rcases lt_trichotomy x (Real.pi / 2) with h | h | h
  · have hcos : 0 < Real.cos x := Real.cos_pos_of_mem_Ioo ⟨by linarith [Real.pi_pos], h⟩
    have ht := Real.lt_tan h0 h
    rw [Real.tan_eq_sin_div_cos, lt_div_iff₀ hcos] at ht
    linarith
  · rw [h]
    simp [Real.sin_pi_div_two, Real.cos_pi_div_two]
  · have hcos : Real.cos x < 0 :=
      Real.cos_neg_of_pi_div_two_lt_of_lt h (by linarith [Real.pi_pos])
    have hsin : 0 ≤ Real.sin x := Real.sin_nonneg_of_nonneg_of_le_pi (le_of_lt h0) hpi
    nlinarith

/-- For `M = 0` and `0 < e < 1` the Newton iterates started anywhere in
`(0, π]` remain in `(0, π]`: whatever the loop returns is strictly
positive. -/
theorem solveKeplerGo_pos (e tol : ℝ) (he0 : 0 < e) (he1 : e < 1) :
    ∀ (fuel : ℕ) (E : ℝ), 0 < E → E ≤ Real.pi →
      0 < solveKeplerGo e tol 0 fuel E ∧ solveKeplerGo e tol 0 fuel E ≤ Real.pi := by
  intro fuel
  induction fuel with
  | zero => intro E h0 hpi; exact ⟨h0, hpi⟩
  | succ n ih =>
    intro E h0 hpi
    have hs : 0 ≤ Real.sin E := Real.sin_nonneg_of_nonneg_of_le_pi (le_of_lt h0) hpi
    have hf : 0 < E - e * Real.sin E - 0 := by
      rcases eq_or_lt_of_le hs with h | h
      · rw [← h]; simpa using h0
      · have h1 : e * Real.sin E < 1 * Real.sin E := by
          apply mul_lt_mul_of_pos_right _ h
          linarith
        have h2 : Real.sin E < E := Real.sin_lt h0
        nlinarith
    have hf' : 0 < 1 - e * Real.cos E := by
      have : e * Real.cos E ≤ e * 1 :=
        mul_le_mul_of_nonneg_left (Real.cos_le_one E) (le_of_lt he0)
      linarith
    have hg := sin_sub_mul_cos_pos h0 hpi
    have hdE : 0 < (E - e * Real.sin E - 0) / (1 - e * Real.cos E) := div_pos hf hf'
    have hE'pos : 0 < E - (E - e * Real.sin E - 0) / (1 - e * Real.cos E) := by
      rw [sub_pos, div_lt_iff₀ hf']
      nlinarith
    have hE'le : E - (E - e * Real.sin E - 0) / (1 - e * Real.cos E) ≤ Real.pi := by
      linarith
    unfold solveKeplerGo
    simp only
    split_ifs with habs
    · exact ⟨hE'pos, hE'le⟩
    · exact ih _ hE'pos hE'le

/-- For `M = 0` and `e ∈ [0.8, 1)` (the `π`-initial-guess branch) the
solver returns a strictly positive anomaly - never exactly 0. -/
theorem solveKepler_M0_highEcc_pos (e : ℝ) (h8 : 0.8 ≤ e) (he1 : e < 1) :
    0 < solveKeplerEquation 0 e := by
  unfold solveKeplerEquation
  rw [if_neg (by linarith)]
  exact (solveKeplerGo_pos e (1e-10) (by linarith) he1 50 Real.pi Real.pi_pos (le_refl _)).1

/-- In the same branch the returned anomaly stays at most `π`. -/
theorem solveKepler_M0_highEcc_le_pi (e : ℝ) (h8 : 0.8 ≤ e) (he1 : e < 1) :
    solveKeplerEquation 0 e ≤ Real.pi := by
  unfold solveKeplerEquation
  rw [if_neg (by linarith)]
  exact (solveKeplerGo_pos e (1e-10) (by linarith) he1 50 Real.pi Real.pi_pos (le_refl _)).2

/-- C3 (amended): `solveKeplerEquation` performs no eccentricity
validation; for every `e ≥ 1` it silently computes and returns a plain
numeric result (at mean anomaly `π` it returns the number `π` after one
Newton step), and `keplerToCartesian` calls it on the same terms - by
construction neither has an error path. -/
theorem C3_solveKeplerEquation_no_validation (e tol : ℝ) (n : ℕ)
    (he : 1 ≤ e) (htol : 0 < tol) (hn : 1 ≤ n) :
    solveKeplerEquation Real.pi e tol n = Real.pi :=
  kepler_Mpi e tol n (by linarith) htol hn

/-- C3 counterexample to the claim as stated: at the concrete
hyperbolic eccentricity `e = 2` the solver returns the plain number `π`
(default tolerance and iteration count) instead of signalling a
validation error. -/
theorem C3_solveKeplerEquation_counterexample :
    solveKeplerEquation Real.pi 2 = Real.pi :=
  kepler_Mpi 2 (1e-10) 50 (by norm_num) (by norm_num) (by norm_num)

/-- Witness for C3 at `e = 2`, default tolerance `1e-10` and 50
iterations. -/
theorem C3_solveKeplerEquation_no_validation_witness :
    ((1 : ℝ) ≤ 2 ∧ (0 : ℝ) < 1e-10 ∧ (1 : ℕ) ≤ 50) ∧
      solveKeplerEquation Real.pi 2 (1e-10) 50 = Real.pi :=
  ⟨⟨by norm_num, by norm_num, by norm_num⟩,
   C3_solveKeplerEquation_no_validation 2 (1e-10) 50 (by norm_num) (by norm_num) (by norm_num)⟩

/-- C6 (amended): with the default tolerance and iteration count,
`solveKeplerEquation(M = 0, e)` returns exactly `E = 0` on the `e < 0.8`
branch (initial guess `M`); on the `e ≥ 0.8` branch (initial guess `π`)
it returns a strictly positive value, so it does not return 0 there. -/
theorem C6_solveKeplerEquation_M0 (e : ℝ) (h0 : 0 ≤ e) (h1 : e < 1) :
    (e < 0.8 → solveKeplerEquation 0 e = 0) ∧
      (0.8 ≤ e → 0 < solveKeplerEquation 0 e) :=
  ⟨fun h8 => kepler_M0_lowEcc e (1e-10) 50 h8 (by norm_num) (by norm_num),
   fun h8 => solveKepler_M0_highEcc_pos e h8 h1⟩

/-- C6 counterexample to the claim as stated: at the concrete valid
eccentricity `e = 0.8` (the `π`-initial-guess branch) the solver does not
return 0. -/
theorem C6_solveKeplerEquation_counterexample :
    solveKeplerEquation 0 0.8 ≠ 0 :=
  ne_of_gt (solveKepler_M0_highEcc_pos 0.8 (le_refl _) (by norm_num))

/-- Witness for C6 at `e = 1/2`. -/
theorem C6_solveKeplerEquation_M0_witness :
    ((0 : ℝ) ≤ 1 / 2 ∧ (1 / 2 : ℝ) < 1) ∧
      ((1 / 2 : ℝ) < 0.8 → solveKeplerEquation 0 (1 / 2) = 0) ∧
      ((0.8 : ℝ) ≤ 1 / 2 → 0 < solveKeplerEquation 0 (1 / 2)) :=
  ⟨⟨by norm_num, by norm_num⟩, C6_solveKeplerEquation_M0 (1 / 2) (by norm_num) (by norm_num)⟩

/-! ### Perihelion at M = 0 (claim C7) -/

/-- `propagateMeanAnomaly(0, n, 0) = 0`. -/
theorem propagateMeanAnomaly_zero (n : ℝ) : propagateMeanAnomaly 0 n 0 = 0 := by
  unfold propagateMeanAnomaly jsMod
  norm_num

/-- The true anomaly of the zero eccentric anomaly is zero. -/
theorem eccentricToTrueAnomaly_zero (e : ℝ) (he0 : 0 ≤ e) (he1 : e < 1) :
    eccentricToTrueAnomaly 0 e = 0 := by
  have hs : 0 ≤ Real.sqrt (1 - e * e) := Real.sqrt_nonneg _
  have hbeta : e / (1 + Real.sqrt (1 - e * e)) < 1 := by
    rw [div_lt_one (by linarith)]
    linarith
  simp only [eccentricToTrueAnomaly, atan2, Real.sin_zero, Real.cos_zero, mul_zero, mul_one]
  rw [if_pos (by linarith : (0 : ℝ) < 1 - e / (1 + Real.sqrt (1 - e * e)))]
  rw [zero_div, Real.arctan_zero]
  ring

/-- The `Ω, i, ω` rotation applied by `keplerToCartesian` preserves the
squared norm of a vector lying on the orbital-plane x-axis. -/
theorem rot_norm_sq (rr cO sO cI sI cW sW : ℝ)
    (hO : sO ^ 2 + cO ^ 2 = 1) (hI : sI ^ 2 + cI ^ 2 = 1) (hW : sW ^ 2 + cW ^ 2 = 1) :
    (rr * (cO * cW - sO * sW * cI)) ^ 2 + (rr * (sO * cW + cO * sW * cI)) ^ 2
      + (rr * (sW * sI)) ^ 2 = rr ^ 2 := by
  linear_combination (rr ^ 2 * (cW ^ 2 + sW ^ 2 * cI ^ 2)) * hO + (rr ^ 2 * sW ^ 2) * hI
    + rr ^ 2 * hW

/-- C7 (amended): for every valid elements with `M0 = 0`, eccentricity in
`(0, 0.8)` and `epoch = targetJD` (dt = 0), `keplerToCartesian` yields a
position whose heliocentric distance is exactly the perihelion distance
`a(1-e)`.  (For `e ∈ [0.8, 1)` the Kepler solver starts from `π` and does
not return anomaly 0, and the distance exceeds `a(1-e)` - see the
counterexample.) -/
theorem C7_keplerToCartesian_perihelion (els : OrbitalElements) (targetJD : ℝ)
    (ha : 0 < els.semiMajorAxis) (he0 : 0 < els.eccentricity)
    (he8 : els.eccentricity < 0.8)
    (hM : els.meanAnomaly = 0) (hep : els.epoch = targetJD) :
    helioDistance els targetJD = els.semiMajorAxis * (1 - els.eccentricity) := by
  obtain ⟨a, e, inc, om, w, M0, ep⟩ := els
  simp only at ha he0 he8 hM hep
  subst hM hep
  unfold helioDistance keplerToCartesian
  simp only
  rw [sub_self, propagateMeanAnomaly_zero,
    kepler_M0_lowEcc e (1e-10) 50 he8 (by norm_num) (by norm_num),
    eccentricToTrueAnomaly_zero e (le_of_lt he0) (by linarith)]
  rw [Real.cos_zero, Real.sin_zero, mul_zero, mul_one]
  have hr : orbitalRadius a e 0 = a * (1 - e) := by
    unfold orbitalRadius
    rw [Real.cos_zero, mul_one]
    have h1e : (1 : ℝ) + e ≠ 0 := by linarith
    field_simp
    ring
  rw [hr]
  simp only [zero_mul, add_zero]
  rw [rot_norm_sq (a * (1 - e)) _ _ _ _ _ _
    (Real.sin_sq_add_cos_sq (om * DEG_TO_RAD))
    (Real.sin_sq_add_cos_sq (inc * DEG_TO_RAD))
    (Real.sin_sq_add_cos_sq (w * DEG_TO_RAD))]
  exact Real.sqrt_sq (by nlinarith)

/-- The concrete counterexample elements for C7: a unit orbit at the
branch boundary eccentricity 0.8, with zero angles, at its epoch. -/
noncomputable def C7elements : OrbitalElements := ⟨1, 0.8, 0, 0, 0, 0, 0⟩

/-- C7 counterexample to the claim as stated: at `e = 0.8` (valid, in
`(0,1)`), `M0 = 0` and `dt = 0` the heliocentric distance strictly
exceeds the perihelion distance `a(1-e)`, hence is not equal to it. -/
theorem C7_keplerToCartesian_counterexample :
    C7elements.semiMajorAxis * (1 - C7elements.eccentricity) < helioDistance C7elements 0 := by
  have hK0 : 0 < solveKeplerEquation 0 0.8 :=
    solveKepler_M0_highEcc_pos 0.8 (le_refl _) (by norm_num)
  have hKpi : solveKeplerEquation 0 0.8 ≤ Real.pi :=
    solveKepler_M0_highEcc_le_pi 0.8 (le_refl _) (by norm_num)
  unfold helioDistance keplerToCartesian C7elements
  simp only
  rw [sub_zero, propagateMeanAnomaly_zero]
  have hsq : Real.sqrt (1 - (0.8 : ℝ) * 0.8) = 0.6 := by
    rw [show (1 : ℝ) - 0.8 * 0.8 = 0.6 ^ 2 by norm_num]
    exact Real.sqrt_sq (by norm_num)
  have hbeta : (0.8 : ℝ) / (1 + Real.sqrt (1 - 0.8 * 0.8)) = 0.5 := by
    rw [hsq]; norm_num
  have hsinK : 0 ≤ Real.sin (solveKeplerEquation 0 0.8) :=
    Real.sin_nonneg_of_nonneg_of_le_pi (le_of_lt hK0) hKpi
  have hx : (0 : ℝ) < 1 - 0.5 * Real.cos (solveKeplerEquation 0 0.8) := by
    nlinarith [Real.cos_le_one (solveKeplerEquation 0 0.8)]
  have hnu : eccentricToTrueAnomaly (solveKeplerEquation 0 0.8) 0.8
      = solveKeplerEquation 0 0.8
        + 2 * Real.arctan ((0.5 * Real.sin (solveKeplerEquation 0 0.8))
            / (1 - 0.5 * Real.cos (solveKeplerEquation 0 0.8))) := by
    simp only [eccentricToTrueAnomaly, atan2, hbeta]
    rw [if_pos hx]
  set K := solveKeplerEquation 0 0.8 with hKdef
  set th := Real.arctan ((0.5 * Real.sin K) / (1 - 0.5 * Real.cos K)) with hth
  have hth0 : 0 ≤ th := by
    rw [hth, ← Real.arctan_zero]
    exact Real.arctan_strictMono.monotone (div_nonneg (by linarith) (le_of_lt hx))
  have hthpi : th < Real.pi / 2 := Real.arctan_lt_pi_div_two _
  have hnu0 : 0 < K + 2 * th := by linarith
  have hnu2pi : K + 2 * th < 2 * Real.pi := by linarith
  have hcosnu : Real.cos (K + 2 * th) < 1 := by
    rcases lt_or_eq_of_le (Real.cos_le_one (K + 2 * th)) with h | h
    · exact h
    · exfalso
      have := (Real.cos_eq_one_iff_of_lt_of_lt (by linarith) hnu2pi).mp h
      linarith
  rw [hnu]
  set nu := K + 2 * th with hnudef
  have hden : (0 : ℝ) < 1 + 0.8 * Real.cos nu := by
    nlinarith [Real.neg_one_le_cos nu]
  have hrlow : (0.2 : ℝ) < orbitalRadius 1 0.8 nu := by
    unfold orbitalRadius
    rw [lt_div_iff₀ hden]
    nlinarith
  rw [show (0 : ℝ) * DEG_TO_RAD = 0 by ring]
  rw [Real.cos_zero, Real.sin_zero]
  rw [Real.lt_sqrt (by norm_num)]
  nlinarith [hrlow, Real.sin_sq_add_cos_sq nu, hden, sq_nonneg (orbitalRadius 1 0.8 nu),
    sq_nonneg (orbitalRadius 1 0.8 nu - 0.2)]

/-- Witness for C7 at elements `a = 2, e = 1/2, i = 30, Ω = 40, ω = 50,
M0 = 0, epoch = targetJD = 100`: distance exactly `2(1 - 1/2) = 1`. -/
theorem C7_keplerToCartesian_perihelion_witness :
    ((0 : ℝ) < 2 ∧ (0 : ℝ) < 1 / 2 ∧ (1 / 2 : ℝ) < 0.8) ∧
      helioDistance ⟨2, 1 / 2, 30, 40, 50, 0, 100⟩ 100 = 2 * (1 - 1 / 2) := by
  refine ⟨⟨by norm_num, by norm_num, by norm_num⟩, ?_⟩
  have h := C7_keplerToCartesian_perihelion ⟨2, 1 / 2, 30, 40, 50, 0, 100⟩ 100
    (by norm_num) (by norm_num) (by norm_num) rfl rfl
  simpa using h

/-! ### Counter bounds and nesting (claims C8, C9) -/

/-- One loop iteration increments each hazard counter by at most one. -/
theorem simStep_counts (els : OrbitalElements) (unc : Uncertainty) (date : DateTime)
    (acc : SimAcc) (s : RandState) :
    (simStep els unc date acc s).1.impacts ≤ acc.impacts + 1 ∧
    (simStep els unc date acc s).1.closeApproaches ≤ acc.closeApproaches + 1 ∧
    (simStep els unc date acc s).1.veryClose ≤ acc.veryClose + 1 := by
  unfold simStep
  simp only
  split_ifs <;> omega

/-- One loop iteration preserves the nesting of the hazard counters,
because the three thresholds nest: 6,500 km < 50,000 km < 384,400 km. -/
theorem simStep_nested (els : OrbitalElements) (unc : Uncertainty) (date : DateTime)
    (acc : SimAcc) (s : RandState)
    (h1 : acc.impacts ≤ acc.veryClose) (h2 : acc.veryClose ≤ acc.closeApproaches) :
    (simStep els unc date acc s).1.impacts ≤ (simStep els unc date acc s).1.veryClose ∧
    (simStep els unc date acc s).1.veryClose
      ≤ (simStep els unc date acc s).1.closeApproaches := by
  unfold simStep
  simp only
  unfold EARTH_CAPTURE_RADIUS_KM MOON_DISTANCE_KM
  split_ifs <;> first | omega | (exfalso; linarith)

/-- Across the whole loop each hazard counter grows by at most the number
of iterations. -/
theorem simLoop_counts (els : OrbitalElements) (unc : Uncertainty) (date : DateTime) :
    ∀ (n : ℕ) (acc : SimAcc) (s : RandState),
      (simLoop els unc date n acc s).1.impacts ≤ acc.impacts + n ∧
      (simLoop els unc date n acc s).1.closeApproaches ≤ acc.closeApproaches + n ∧
      (simLoop els unc date n acc s).1.veryClose ≤ acc.veryClose + n := by
  intro n
  induction n with
  | zero => intro acc s; unfold simLoop; dsimp only; omega
  | succ m ih =>
    intro acc s
    unfold simLoop
    dsimp only
    have h := ih (simStep els unc date acc s).1 (simStep els unc date acc s).2
    have hstep := simStep_counts els unc date acc s
    omega

/-- Across the whole loop the nesting of the hazard counters is
preserved. -/
theorem simLoop_nested (els : OrbitalElements) (unc : Uncertainty) (date : DateTime) :
    ∀ (n : ℕ) (acc : SimAcc) (s : RandState),
      acc.impacts ≤ acc.veryClose → acc.veryClose ≤ acc.closeApproaches →
      (simLoop els unc date n acc s).1.impacts ≤ (simLoop els unc date n acc s).1.veryClose ∧
      (simLoop els unc date n acc s).1.veryClose
        ≤ (simLoop els unc date n acc s).1.closeApproaches := by
  intro n
  induction n with
  | zero => intro acc s h1 h2; unfold simLoop; exact ⟨h1, h2⟩
  | succ m ih =>
    intro acc s h1 h2
    unfold simLoop
    dsimp only
    have hstep := simStep_nested els unc date acc s h1 h2
    exact ih (simStep els unc date acc s).1 (simStep els unc date acc s).2 hstep.1 hstep.2

/-- C8: for every invocation of `runSimulation` with at least one sample,
each of the three hazard counters lies in `[0, N]` (the lower bound is
by the counter type) and the impact probability lies in `[0, 1]`. -/
theorem C8_runSimulation_bounds (els : OrbitalElements) (date : DateTime) (N : ℕ)
    (unc : Uncertainty) (s : RandState) (hN : 1 ≤ N) :
    (runSimulation els date N unc s).1.counts.impacts ≤ N ∧
    (runSimulation els date N unc s).1.counts.closeApproaches ≤ N ∧
    (runSimulation els date N unc s).1.counts.veryClose ≤ N ∧
    0 ≤ (runSimulation els date N unc s).1.impactProbability ∧
    (runSimulation els date N unc s).1.impactProbability ≤ 1 := by
  have h := simLoop_counts els unc date N ⟨0, 0, 0, [], ⊤, 0⟩ s
  simp only [Nat.zero_add] at h
  have hNpos : (0 : ℝ) < (N : ℝ) := by exact_mod_cast hN
  unfold runSimulation
  simp only
  refine ⟨by omega, by omega, by omega, by positivity, ?_⟩
  rw [div_le_one hNpos]
  exact_mod_cast h.1

/-- Witness for C8 with one sample on a constant draw stream. -/
theorem C8_runSimulation_bounds_witness :
    1 ≤ 1 ∧
      ((runSimulation ⟨1, 0, 0, 0, 0, 0, 0⟩ ⟨2020, 1, 1, 0, 0, 0⟩ 1 DEFAULT_UNCERTAINTY
          ⟨fun _ => 1 / 2, 0⟩).1.counts.impacts ≤ 1 ∧
       (runSimulation ⟨1, 0, 0, 0, 0, 0, 0⟩ ⟨2020, 1, 1, 0, 0, 0⟩ 1 DEFAULT_UNCERTAINTY
          ⟨fun _ => 1 / 2, 0⟩).1.counts.closeApproaches ≤ 1 ∧
       (runSimulation ⟨1, 0, 0, 0, 0, 0, 0⟩ ⟨2020, 1, 1, 0, 0, 0⟩ 1 DEFAULT_UNCERTAINTY
          ⟨fun _ => 1 / 2, 0⟩).1.counts.veryClose ≤ 1 ∧
       0 ≤ (runSimulation ⟨1, 0, 0, 0, 0, 0, 0⟩ ⟨2020, 1, 1, 0, 0, 0⟩ 1 DEFAULT_UNCERTAINTY
          ⟨fun _ => 1 / 2, 0⟩).1.impactProbability ∧
       (runSimulation ⟨1, 0, 0, 0, 0, 0, 0⟩ ⟨2020, 1, 1, 0, 0, 0⟩ 1 DEFAULT_UNCERTAINTY
          ⟨fun _ => 1 / 2, 0⟩).1.impactProbability ≤ 1) :=
  ⟨le_refl 1,
   C8_runSimulation_bounds ⟨1, 0, 0, 0, 0, 0, 0⟩ ⟨2020, 1, 1, 0, 0, 0⟩ 1 DEFAULT_UNCERTAINTY
     ⟨fun _ => 1 / 2, 0⟩ (le_refl 1)⟩

/-- C9: in every result of `runSimulation` the hazard counters nest -
`impacts ≤ veryClose ≤ closeApproaches` - and therefore so do the derived
probabilities. -/
theorem C9_runSimulation_nested (els : OrbitalElements) (date : DateTime) (N : ℕ)
    (unc : Uncertainty) (s : RandState) :
    ((runSimulation els date N unc s).1.counts.impacts
        ≤ (runSimulation els date N unc s).1.counts.veryClose ∧
      (runSimulation els date N unc s).1.counts.veryClose
        ≤ (runSimulation els date N unc s).1.counts.closeApproaches) ∧
    (runSimulation els date N unc s).1.impactProbability
        ≤ (runSimulation els date N unc s).1.veryCloseProbability ∧
    (runSimulation els date N unc s).1.veryCloseProbability
        ≤ (runSimulation els date N unc s).1.closeApproachProbability := by
  have h := simLoop_nested els unc date N ⟨0, 0, 0, [], ⊤, 0⟩ s (le_refl 0) (le_refl 0)
  unfold runSimulation
  simp only
  refine ⟨⟨h.1, h.2⟩, ?_, ?_⟩
  · exact div_le_div_of_le (Nat.cast_nonneg N) (by exact_mod_cast h.1)
  · exact div_le_div_of_le (Nat.cast_nonneg N) (by exact_mod_cast h.2)

/-! ### Hidden-generator dependence (claim C4) -/

/-- The sampled elements depend only on the 12 hidden draws consumed
(two per element). -/
theorem sampleOrbitalElements_ext (els : OrbitalElements) (unc : Uncertainty)
    (s₁ s₂ : RandState)
    (h : ∀ k, k < 12 → s₁.stream (s₁.cursor + k) = s₂.stream (s₂.cursor + k)) :
    (sampleOrbitalElements els unc s₁).1 = (sampleOrbitalElements els unc s₂).1 := by
  have g0 : s₁.stream s₁.cursor = s₂.stream s₂.cursor := by
    have := h 0 (by omega); simpa using this
  have g1 : s₁.stream (s₁.cursor + 1) = s₂.stream (s₂.cursor + 1) :=
    h 1 (by omega)
  have g2 : s₁.stream (s₁.cursor + 1 + 1) = s₂.stream (s₂.cursor + 1 + 1) := by
    have := h 2 (by omega)
    rw [show s₁.cursor + 1 + 1 = s₁.cursor + 2 by omega, show s₂.cursor + 1 + 1 = s₂.cursor + 2 by omega]
    exact this
  have g3 : s₁.stream (s₁.cursor + 1 + 1 + 1) = s₂.stream (s₂.cursor + 1 + 1 + 1) := by
    have := h 3 (by omega)
    rw [show s₁.cursor + 1 + 1 + 1 = s₁.cursor + 3 by omega, show s₂.cursor + 1 + 1 + 1 = s₂.cursor + 3 by omega]
    exact this
  have g4 : s₁.stream (s₁.cursor + 1 + 1 + 1 + 1) = s₂.stream (s₂.cursor + 1 + 1 + 1 + 1) := by
    have := h 4 (by omega)
    rw [show s₁.cursor + 1 + 1 + 1 + 1 = s₁.cursor + 4 by omega, show s₂.cursor + 1 + 1 + 1 + 1 = s₂.cursor + 4 by omega]
    exact this
  have g5 : s₁.stream (s₁.cursor + 1 + 1 + 1 + 1 + 1) = s₂.stream (s₂.cursor + 1 + 1 + 1 + 1 + 1) := by
    have := h 5 (by omega)
    rw [show s₁.cursor + 1 + 1 + 1 + 1 + 1 = s₁.cursor + 5 by omega, show s₂.cursor + 1 + 1 + 1 + 1 + 1 = s₂.cursor + 5 by omega]
    exact this
  have g6 : s₁.stream (s₁.cursor + 1 + 1 + 1 + 1 + 1 + 1) = s₂.stream (s₂.cursor + 1 + 1 + 1 + 1 + 1 + 1) := by
    have := h 6 (by omega)
    rw [show s₁.cursor + 1 + 1 + 1 + 1 + 1 + 1 = s₁.cursor + 6 by omega, show s₂.cursor + 1 + 1 + 1 + 1 + 1 + 1 = s₂.cursor + 6 by omega]
    exact this
  have g7 : s₁.stream (s₁.cursor + 1 + 1 + 1 + 1 + 1 + 1 + 1) = s₂.stream (s₂.cursor + 1 + 1 + 1 + 1 + 1 + 1 + 1) := by
    have := h 7 (by omega)
    rw [show s₁.cursor + 1 + 1 + 1 + 1 + 1 + 1 + 1 = s₁.cursor + 7 by omega, show s₂.cursor + 1 + 1 + 1 + 1 + 1 + 1 + 1 = s₂.cursor + 7 by omega]
    exact this
  have g8 : s₁.stream (s₁.cursor + 1 + 1 + 1 + 1 + 1 + 1 + 1 + 1) = s₂.stream (s₂.cursor + 1 + 1 + 1 + 1 + 1 + 1 + 1 + 1) := by
    have := h 8 (by omega)
    rw [show s₁.cursor + 1 + 1 + 1 + 1 + 1 + 1 + 1 + 1 = s₁.cursor + 8 by omega, show s₂.cursor + 1 + 1 + 1 + 1 + 1 + 1 + 1 + 1 = s₂.cursor + 8 by omega]
    exact this
  have g9 : s₁.stream (s₁.cursor + 1 + 1 + 1 + 1 + 1 + 1 + 1 + 1 + 1) = s₂.stream (s₂.cursor + 1 + 1 + 1 + 1 + 1 + 1 + 1 + 1 + 1) := by
    have := h 9 (by omega)
    rw [show s₁.cursor + 1 + 1 + 1 + 1 + 1 + 1 + 1 + 1 + 1 = s₁.cursor + 9 by omega, show s₂.cursor + 1 + 1 + 1 + 1 + 1 + 1 + 1 + 1 + 1 = s₂.cursor + 9 by omega]
    exact this
  have g10 : s₁.stream (s₁.cursor + 1 + 1 + 1 + 1 + 1 + 1 + 1 + 1 + 1 + 1) = s₂.stream (s₂.cursor + 1 + 1 + 1 + 1 + 1 + 1 + 1 + 1 + 1 + 1) := by
    have := h 10 (by omega)
    rw [show s₁.cursor + 1 + 1 + 1 + 1 + 1 + 1 + 1 + 1 + 1 + 1 = s₁.cursor + 10 by omega, show s₂.cursor + 1 + 1 + 1 + 1 + 1 + 1 + 1 + 1 + 1 + 1 = s₂.cursor + 10 by omega]
    exact this
  have g11 : s₁.stream (s₁.cursor + 1 + 1 + 1 + 1 + 1 + 1 + 1 + 1 + 1 + 1 + 1) = s₂.stream (s₂.cursor + 1 + 1 + 1 + 1 + 1 + 1 + 1 + 1 + 1 + 1 + 1) := by
    have := h 11 (by omega)
    rw [show s₁.cursor + 1 + 1 + 1 + 1 + 1 + 1 + 1 + 1 + 1 + 1 + 1 = s₁.cursor + 11 by omega, show s₂.cursor + 1 + 1 + 1 + 1 + 1 + 1 + 1 + 1 + 1 + 1 + 1 = s₂.cursor + 11 by omega]
    exact this
  unfold sampleOrbitalElements randomNormal mathRandom
  simp only
  simp only [g0, g1, g2, g3, g4, g5, g6, g7, g8, g9, g10, g11]

theorem sampleOrbitalElements_state (els : OrbitalElements) (unc : Uncertainty)
    (s : RandState) :
    (sampleOrbitalElements els unc s).2 = ⟨s.stream, s.cursor + 12⟩ := by
  unfold sampleOrbitalElements randomNormal mathRandom
  simp only

/-- One loop iteration consumes exactly the 12 draws of its sample and
updates the accumulator identically under hidden states agreeing on
them. -/
theorem simStep_ext (els : OrbitalElements) (unc : Uncertainty) (date : DateTime)
    (acc : SimAcc) (s₁ s₂ : RandState)
    (h : ∀ k, k < 12 → s₁.stream (s₁.cursor + k) = s₂.stream (s₂.cursor + k)) :
    (simStep els unc date acc s₁).1 = (simStep els unc date acc s₂).1 := by
  have hs := sampleOrbitalElements_ext els unc s₁ s₂ h
  unfold simStep
  simp only
  rw [hs]

/-- One loop iteration advances the hidden cursor by exactly 12. -/
theorem simStep_state (els : OrbitalElements) (unc : Uncertainty) (date : DateTime)
    (acc : SimAcc) (s : RandState) :
    (simStep els unc date acc s).2 = ⟨s.stream, s.cursor + 12⟩ := by
  unfold simStep
  simp only
  exact sampleOrbitalElements_state els unc s

/-- The simulation loop depends only on the `12 * n` hidden draws it
consumes. -/
theorem simLoop_ext (els : OrbitalElements) (unc : Uncertainty) (date : DateTime) :
    ∀ (n : ℕ) (acc : SimAcc) (s₁ s₂ : RandState),
      (∀ k, k < 12 * n → s₁.stream (s₁.cursor + k) = s₂.stream (s₂.cursor + k)) →
      (simLoop els unc date n acc s₁).1 = (simLoop els unc date n acc s₂).1 := by
  intro n
  induction n with
  | zero => intro acc s₁ s₂ h; rfl
  | succ m ih =>
    intro acc s₁ s₂ h
    unfold simLoop
    dsimp only
    have hacc : (simStep els unc date acc s₁).1 = (simStep els unc date acc s₂).1 :=
      simStep_ext els unc date acc s₁ s₂ (fun k hk => h k (by omega))
    rw [hacc, simStep_state els unc date acc s₁, simStep_state els unc date acc s₂]
    apply ih
    intro k hk
    dsimp only
    have := h (12 + k) (by omega)
    rw [show s₁.cursor + (12 + k) = s₁.cursor + 12 + k by omega] at this
    rw [show s₂.cursor + (12 + k) = s₂.cursor + 12 + k by omega] at this
    exact this

/-- A hidden-generator stream whose even draws are `exp(-1)` and whose
odd draws are `1/4` (so every Box-Muller draw is
`sqrt(2) cos(pi/2) = 0`). -/
noncomputable def C4streamA : ℕ → ℝ := fun k => if k % 2 = 0 then Real.exp (-1) else 1 / 4

/-- The same stream with odd draws `1/2` (so every Box-Muller draw is
`sqrt(2) cos(pi) = -sqrt(2)`). -/
noncomputable def C4streamB : ℕ → ℝ := fun k => if k % 2 = 0 then Real.exp (-1) else 1 / 2

/-- Nominal elements for the C4 counterexample. -/
noncomputable def C4elements : OrbitalElements := ⟨1, 0.5, 2, 3, 4, 5, 6⟩

/-- C4 counterexample to the claim as stated: two invocations of
`sampleOrbitalElements` with identical explicit arguments but different
hidden `Math.random` states return different sampled elements, so the
output is not a pure function of the explicit inputs - the randomness
source is the hidden global generator, not an injectable parameter. -/
theorem C4_sampleOrbitalElements_counterexample :
    (sampleOrbitalElements C4elements DEFAULT_UNCERTAINTY ⟨C4streamA, 0⟩).1.semiMajorAxis
      ≠ (sampleOrbitalElements C4elements DEFAULT_UNCERTAINTY ⟨C4streamB, 0⟩).1.semiMajorAxis := by
  unfold sampleOrbitalElements randomNormal mathRandom C4streamA C4streamB C4elements
    DEFAULT_UNCERTAINTY
  norm_num
  rw [show (2 : ℝ) * Real.pi * (1 / 4) = Real.pi / 2 by ring,
    show (2 : ℝ) * Real.pi * (1 / 2) = Real.pi by ring, Real.cos_pi_div_two, Real.cos_pi]
  norm_num

/-- `runSimulation` depends only on its explicit inputs and the
`12 * numSimulations` hidden draws consumed by the loop. -/
theorem runSimulation_ext (els : OrbitalElements) (date : DateTime) (N : ℕ)
    (unc : Uncertainty) (s₁ s₂ : RandState)
    (h : ∀ k, k < 12 * N → s₁.stream (s₁.cursor + k) = s₂.stream (s₂.cursor + k)) :
    (runSimulation els date N unc s₁).1 = (runSimulation els date N unc s₂).1 := by
  have hloop := simLoop_ext els unc date N ⟨0, 0, 0, [], ⊤, 0⟩ s₁ s₂ h
  unfold runSimulation
  simp only
  rw [hloop]

/-- C4 (amended): the randomness source of `sampleOrbitalElements` and
`runSimulation` is the hidden global `Math.random` generator rather than
an explicit parameter; every numeric output is a pure function of the
explicit inputs plus that hidden generator state (two runs whose hidden
states agree on the consumed draws produce the same result), but not of
the explicit inputs alone (see the counterexample). -/
theorem C4_runSimulation_hidden_generator :
    (∀ (els : OrbitalElements) (unc : Uncertainty) (s₁ s₂ : RandState),
        (∀ k, k < 12 → s₁.stream (s₁.cursor + k) = s₂.stream (s₂.cursor + k)) →
        (sampleOrbitalElements els unc s₁).1 = (sampleOrbitalElements els unc s₂).1) ∧
    (∀ (els : OrbitalElements) (date : DateTime) (N : ℕ) (unc : Uncertainty)
        (s₁ s₂ : RandState),
        (∀ k, k < 12 * N → s₁.stream (s₁.cursor + k) = s₂.stream (s₂.cursor + k)) →
        (runSimulation els date N unc s₁).1 = (runSimulation els date N unc s₂).1) :=
  ⟨sampleOrbitalElements_ext, runSimulation_ext⟩

/-- Witness for C4: two identical hidden states trivially agree on all
draws and produce identical outputs. -/
theorem C4_runSimulation_hidden_generator_witness :
    (∀ k, k < 12 →
        (⟨fun _ => (1 : ℝ) / 2, 0⟩ : RandState).stream
            ((⟨fun _ => (1 : ℝ) / 2, 0⟩ : RandState).cursor + k)
          = (⟨fun _ => (1 : ℝ) / 2, 0⟩ : RandState).stream
            ((⟨fun _ => (1 : ℝ) / 2, 0⟩ : RandState).cursor + k)) ∧
      (sampleOrbitalElements ⟨1, 0, 0, 0, 0, 0, 0⟩ DEFAULT_UNCERTAINTY
          ⟨fun _ => (1 : ℝ) / 2, 0⟩).1
        = (sampleOrbitalElements ⟨1, 0, 0, 0, 0, 0, 0⟩ DEFAULT_UNCERTAINTY
          ⟨fun _ => (1 : ℝ) / 2, 0⟩).1 :=
  ⟨fun k hk => rfl,
   C4_runSimulation_hidden_generator.1 ⟨1, 0, 0, 0, 0, 0, 0⟩ DEFAULT_UNCERTAINTY
     ⟨fun _ => (1 : ℝ) / 2, 0⟩ ⟨fun _ => (1 : ℝ) / 2, 0⟩ (fun k hk => rfl)⟩
